import Mathlib

/-!
# Verification of the DenselineLaneDetector geometry and lifecycle contract

Shallow embedding of
`modules/perception/camera/lib/lane/detector/denseline/denseline_lane_detector.cc`
(Apollo perception).  External collaborators (protobuf parsing, the inference
engine, the GPU resize kernel, the frame's data provider) are modelled as
explicit parameters; glog `CHECK`/`CHECK_LE`/`CHECK_EQ` failures are modelled
as error returns carrying the failed check, and `AINFO`/`AERROR` logging and
collaborator invocations are recorded in an event trace.

C++ `float` quantities (`resize_scale`, the means) are modelled by their
exact rational values, carried as explicit numerator/denominator pairs
(`FloatQ`); the C++ `float → int` conversion in `resize_height_ =
crop_height_ * image_scale_` truncates toward zero, modelled by `mulTrunc`.
-/

/-- The exact rational value of a C++ `float`, as an (unreduced)
numerator/denominator pair. -/
structure FloatQ where
  num : Int
  den : Int
deriving DecidableEq, Repr

/-- The value a `FloatQ` denotes. -/
def FloatQ.toRat (s : FloatQ) : ℚ := (s.num : ℚ) / (s.den : ℚ)

/-- C++ `int r = c * s` with `int c` and `float s`: the product truncated
toward zero.  `Int.tdiv` truncates toward zero, so this is exactly the
truncation of the rational value `c * s`. -/
def mulTrunc (c : Int) (s : FloatQ) : Int := (c * s.num).tdiv s.den

/-- When the product `c * s` is exactly an integer `n`, the truncated
product is `n`: the C++ assignment loses nothing on exactly-integral
products. -/
theorem mulTrunc_exact (c n : Int) (s : FloatQ) (hd : s.den ≠ 0)
    (h : (c : ℚ) * s.toRat = (n : ℚ)) : mulTrunc c s = n := by
  have hdQ : (s.den : ℚ) ≠ 0 := Int.cast_ne_zero.mpr hd
  have hmul : (c : ℚ) * s.num = (n : ℚ) * s.den := by
    field_simp [FloatQ.toRat] at h
    linarith [h]
  have hZ : c * s.num = n * s.den := by
    exact_mod_cast hmul
  rw [mulTrunc, hZ, Int.mul_tdiv_cancel _ hd]

deriving instance DecidableEq for Except

/-- Log severity of the `AINFO` / `AWARN` / `AERROR` macros. -/
inductive Severity
  | info
  | warn
  | error
deriving DecidableEq, Repr

/-- `true` for severities at least as strong as a warning. -/
def Severity.atLeastWarn : Severity → Bool
  | .info => false
  | .warn => true
  | .error => true

/-- `base::Color` target color of the data-provider image option. -/
inductive Color
  | BGR
  | RGB
deriving DecidableEq, Repr

/-- A named tensor as exposed by `rt_net_->get_blob(name)`:
its shape components `channels() / height() / width()`. -/
structure Blob where
  channels : Int
  height : Int
  width : Int
deriving DecidableEq, Repr

/-- `base::BaseCameraModel`: only `get_height()` / `get_width()` are used. -/
structure CameraModel where
  height : Int
  width : Int
deriving DecidableEq, Repr

/-- The `model_param` section of the parsed denseline proto. -/
structure ModelParam where
  resize_scale : FloatQ
  input_offset_x : Int
  input_offset_y : Int
  crop_height : Int
  crop_width : Int
  is_bgr : Bool
  mean_b : FloatQ
  mean_g : FloatQ
  mean_r : FloatQ
deriving DecidableEq, Repr

/-- The `net_param` section of the parsed denseline proto. -/
structure NetParam where
  in_blob : String
  out_blob : String
  internal_blob_int8 : List String
deriving DecidableEq, Repr

/-- The parsed `denseline_param_` proto. -/
structure DenselineParam where
  model_param : ModelParam
  net_param : NetParam
deriving DecidableEq, Repr

/-- Observable events: log lines and collaborator invocations, in order. -/
inductive Event
  | log (sev : Severity) (msg : String)
  | createEngine (outputs : List String) (inputs : List String)
  | netInit (shape : List Int)
  | getImage
  | resizeGPU (cropWidth : Int)
  | deviceSync
  | infer
deriving DecidableEq, Repr

/-- The external inference engine handle (`rt_net_`): named tensor lookup. -/
structure Engine where
  blobs : String → Blob

/-- External engine factory and net-init behaviour:
`inference::CreateInferenceByName` (may return null) and `rt_net_->Init`. -/
structure EngineWorld where
  create : List String → List String → Option Engine
  netInitOk : List Int → Bool

/-- The mutable member state of `DenselineLaneDetector` that `Init` writes
and `Detect` reads. -/
structure DetectorState where
  input_height : Int
  input_width : Int
  image_scale : FloatQ
  input_offset_x : Int
  input_offset_y : Int
  crop_height : Int
  crop_width : Int
  target_color : Color
  image_mean : FloatQ × FloatQ × FloatQ
  net_inputs : List String
  net_outputs : List String
  resize_height : Int
  resize_width : Int
deriving DecidableEq, Repr

/-- A freshly constructed detector: numeric members default, blob-name
vectors empty. -/
def freshDetector : DetectorState :=
  { input_height := 0
    input_width := 0
    image_scale := { num := 0, den := 1 }
    input_offset_x := 0
    input_offset_y := 0
    crop_height := 0
    crop_width := 0
    target_color := Color.BGR
    image_mean := ({ num := 0, den := 1 }, { num := 0, den := 1 }, { num := 0, den := 1 })
    net_inputs := []
    net_outputs := []
    resize_height := 0
    resize_width := 0 }

/-- `Init`-time failures: proto-load failure and each glog check, in
source order. -/
inductive InitErr
  | protoLoadFailed
  | inputWidthNonPos
  | inputHeightNonPos
  | cropHeightExceeds
  | cropWidthExceeds
  | engineCreateFailed
  | resizeWidthNonPos
  | resizeHeightNonPos
  | netInitFailed
deriving DecidableEq, Repr

/-- `Detect`-time failures, in source order. -/
inductive DetectErr
  | nullFrame
  | frameSizeMismatch
  | getImageFailed
  | shapeDrift
deriving DecidableEq, Repr

/-- The camera frame as `Detect` sees it: the data provider's
`src_width()`/`src_height()` and whether `GetImage` succeeds. -/
structure CameraFrame where
  src_width : Int
  src_height : Int
  getImageOk : Bool
deriving DecidableEq, Repr

def nullptrMsg : String := "options.intrinsic is nullptr!"

/-- Placeholder name for indexing `vector[0]` of an empty name vector
(never reached from a state produced by `Init`). -/
def noBlobName : String := ""

namespace DenselineLaneDetector

/-- Body of `Init` after the camera-model branch fixed `input_height_` (`ih`)
and `input_width_` (`iw`).  Follows the source line by line:
`CHECK(input_width_ > 0)`, `CHECK(input_height_ > 0)` (lines 61-62);
read scale/offsets/crop from `model_param` (67-71);
`CHECK_LE(crop_height_, input_height_)`, `CHECK_LE(crop_width_, input_width_)`
(73-76); the `is_bgr` mean/color branch (78-88); `push_back` of
`in_blob`/`out_blob` and append of `internal_blob_int8` onto the EXISTING
member vectors (100-104); `CreateInferenceByName(..., net_outputs_,
net_inputs_, ...)` with `CHECK(rt_net_ != nullptr)` (115-122);
`resize_{height,width}_ = crop_* * image_scale_` with float-to-int
truncation and `CHECK(resize_width_ > 0)`, `CHECK(resize_height_ > 0)`
(125-128); `rt_net_->Init({1,3,resize_height_,resize_width_})` (130-142). -/
def initCore (st : DetectorState) (w : EngineWorld) (p : DenselineParam)
    (ih iw : Int) : Except InitErr DetectorState × List Event :=
  if 0 < iw then
    if 0 < ih then
      let mp := p.model_param
      let image_scale := mp.resize_scale
      let input_offset_y := mp.input_offset_y
      let input_offset_x := mp.input_offset_x
      let crop_height := mp.crop_height
      let crop_width := mp.crop_width
      if crop_height ≤ ih then
        if crop_width ≤ iw then
          let target_color := if mp.is_bgr then Color.BGR else Color.RGB
          let image_mean :=
            if mp.is_bgr then (mp.mean_b, mp.mean_g, mp.mean_r)
            else (mp.mean_r, mp.mean_g, mp.mean_b)
          let net_inputs := st.net_inputs ++ [p.net_param.in_blob]
          let net_outputs :=
            st.net_outputs ++ p.net_param.out_blob :: p.net_param.internal_blob_int8
          if (w.create net_outputs net_inputs).isSome then
              let resize_height := mulTrunc crop_height image_scale
              let resize_width := mulTrunc crop_width image_scale
              if 0 < resize_width then
                if 0 < resize_height then
                  let shape : List Int := [1, 3, resize_height, resize_width]
                  if w.netInitOk shape then
                    (Except.ok
                      { input_height := ih
                        input_width := iw
                        image_scale := image_scale
                        input_offset_x := input_offset_x
                        input_offset_y := input_offset_y
                        crop_height := crop_height
                        crop_width := crop_width
                        target_color := target_color
                        image_mean := image_mean
                        net_inputs := net_inputs
                        net_outputs := net_outputs
                        resize_height := resize_height
                        resize_width := resize_width },
                     [Event.createEngine net_outputs net_inputs,
                      Event.netInit shape])
                  else
                    (Except.error InitErr.netInitFailed,
                     [Event.createEngine net_outputs net_inputs,
                      Event.netInit shape])
                else
                  (Except.error InitErr.resizeHeightNonPos,
                   [Event.createEngine net_outputs net_inputs])
              else
                (Except.error InitErr.resizeWidthNonPos,
                 [Event.createEngine net_outputs net_inputs])
          else
            (Except.error InitErr.engineCreateFailed,
             [Event.createEngine net_outputs net_inputs])
        else (Except.error InitErr.cropWidthExceeds, [])
      else (Except.error InitErr.cropHeightExceeds, [])
    else (Except.error InitErr.inputHeightNonPos, [])
  else (Except.error InitErr.inputWidthNonPos, [])

/-- `DenselineLaneDetector::Init`.  `proto` is the result of
`GetProtoFromFile` (`none` = load failure, line 34-37); `cam` is
`options.base_camera_model` (lines 52-60): when null, an `AERROR` is
emitted and the native size falls back to 1080 x 1920. -/
def Init (st : DetectorState) (w : EngineWorld) (proto : Option DenselineParam)
    (cam : Option CameraModel) : Except InitErr DetectorState × List Event :=
  match proto with
  | none => (Except.error InitErr.protoLoadFailed, [])
  | some p =>
    match cam with
    | none =>
        let r := initCore st w p 1080 1920
        (r.1, Event.log Severity.error nullptrMsg :: r.2)
    | some c => initCore st w p c.height c.width

/-- `DenselineLaneDetector::Detect`.  Follows the source: null-frame early
return (162-165); `CHECK_EQ(input_width_, src_width())` then
`CHECK_EQ(input_height_, src_height())` (168-173);
`CHECK(data_provider->GetImage(...))` (175); input blob lookup by
`net_inputs_[0]` and `CHECK_EQ` of its height/width against
`resize_height_`/`resize_width_` (178-188); `ResizeGPU`,
`cudaDeviceSynchronize`, `Infer` (192-203); publication of the blob named
`net_outputs_[0]` into `frame->lane_detected_blob` (206).  `Detect` writes
no detector member used by validation, so the returned value is the
published blob only. -/
def Detect (st : DetectorState) (eng : Engine) (frame : Option CameraFrame) :
    Except DetectErr Blob × List Event :=
  match frame with
  | none => (Except.error DetectErr.nullFrame, [])
  | some f =>
    if st.input_width = f.src_width then
      if st.input_height = f.src_height then
        if f.getImageOk then
          let input_blob := eng.blobs (st.net_inputs.headD noBlobName)
          if input_blob.height = st.resize_height then
            if input_blob.width = st.resize_width then
              (Except.ok (eng.blobs (st.net_outputs.headD noBlobName)),
               [Event.getImage, Event.resizeGPU st.crop_width,
                Event.deviceSync, Event.infer])
            else (Except.error DetectErr.shapeDrift, [Event.getImage])
          else (Except.error DetectErr.shapeDrift, [Event.getImage])
        else (Except.error DetectErr.getImageFailed, [Event.getImage])
      else (Except.error DetectErr.frameSizeMismatch, [])
    else (Except.error DetectErr.frameSizeMismatch, [])

/-- The detector member state written by a successful `Init` pass over a
pre-state `st` with parsed proto `p` and native size `ih x iw`: the state
`initCore` constructs on its success path.  Note `net_inputs`/`net_outputs`
are appended onto the pre-state's vectors (`push_back`), and the resize
dimensions are the truncated products. -/
def readyState (st : DetectorState) (p : DenselineParam) (ih iw : Int) :
    DetectorState :=
  { input_height := ih
    input_width := iw
    image_scale := p.model_param.resize_scale
    input_offset_x := p.model_param.input_offset_x
    input_offset_y := p.model_param.input_offset_y
    crop_height := p.model_param.crop_height
    crop_width := p.model_param.crop_width
    target_color := if p.model_param.is_bgr then Color.BGR else Color.RGB
    image_mean :=
      if p.model_param.is_bgr then
        (p.model_param.mean_b, p.model_param.mean_g, p.model_param.mean_r)
      else
        (p.model_param.mean_r, p.model_param.mean_g, p.model_param.mean_b)
    net_inputs := st.net_inputs ++ [p.net_param.in_blob]
    net_outputs :=
      st.net_outputs ++ p.net_param.out_blob :: p.net_param.internal_blob_int8
    resize_height := mulTrunc p.model_param.crop_height p.model_param.resize_scale
    resize_width := mulTrunc p.model_param.crop_width p.model_param.resize_scale }

end DenselineLaneDetector

open DenselineLaneDetector

/-! ## Concrete fixtures for witnesses and counterexamples -/

/-- An engine world whose factory always succeeds, every blob reporting
shape `3 x h x wdt`, and whose net init always succeeds. -/
def okWorld (h wdt : Int) : EngineWorld :=
  { create := fun _ _ => some { blobs := fun _ => { channels := 3, height := h, width := wdt } }
    netInitOk := fun _ => true }

/-- A 1920 x 1080 camera model. -/
def cam1080 : CameraModel := { height := 1080, width := 1920 }

/-- The spec's end-to-end configuration: crop `{x=0, y=300, w=1920, h=480}`,
scale `0.5`. -/
def pMain : DenselineParam :=
  { model_param :=
      { resize_scale := { num := 1, den := 2 }
        input_offset_x := 0
        input_offset_y := 300
        crop_height := 480
        crop_width := 1920
        is_bgr := true
        mean_b := { num := 95, den := 1 }
        mean_g := { num := 99, den := 1 }
        mean_r := { num := 96, den := 1 } }
    net_param := { in_blob := "data", out_blob := "conv_out", internal_blob_int8 := [] } }

/-- Like `pMain` but with `input_offset_x = 100`, so the offset crop
rectangle overhangs the 1920-wide native frame (100 + 1920 > 1920). -/
def pOffset : DenselineParam :=
  { pMain with model_param := { pMain.model_param with input_offset_x := 100 } }

/-- Like `pMain` but with `crop_height = 2000 > 1080`. -/
def pBig : DenselineParam :=
  { pMain with model_param := { pMain.model_param with crop_height := 2000 } }

/-- Scale `0.33` with crop `101 x 100`: `101 x 0.33 = 33.33` is not a whole
number. -/
def pTrunc33 : DenselineParam :=
  { model_param :=
      { resize_scale := { num := 33, den := 100 }
        input_offset_x := 0
        input_offset_y := 0
        crop_height := 100
        crop_width := 101
        is_bgr := false
        mean_b := { num := 95, den := 1 }
        mean_g := { num := 99, den := 1 }
        mean_r := { num := 96, den := 1 } }
    net_param := { in_blob := "data", out_blob := "conv_out", internal_blob_int8 := [] } }

/-- Scale `1/3` with crop `103 x 90`: `103 / 3 = 34.33...` is not a whole
number. -/
def pTrunc3 : DenselineParam :=
  { pTrunc33 with model_param :=
      { pTrunc33.model_param with
          resize_scale := { num := 1, den := 3 }
          crop_height := 90
          crop_width := 103 } }

/-- Like `pMain` but with a second configured output name `blob_b`. -/
def pTwoOut : DenselineParam :=
  { pMain with net_param := { pMain.net_param with internal_blob_int8 := ["blob_b"] } }

/-- An engine whose every blob reports `3 x 240 x 960`. -/
def eng960 : Engine :=
  { blobs := fun _ => { channels := 3, height := 240, width := 960 } }

/-- An engine whose every blob reports height 111: drifted with respect to
a validated height of 240. -/
def engDrift : Engine :=
  { blobs := fun _ => { channels := 3, height := 111, width := 960 } }

/-- An engine that distinguishes the blob names of `pTwoOut`. -/
def engNamed : Engine :=
  { blobs := fun n =>
      if n = "data" then { channels := 3, height := 240, width := 960 }
      else if n = "conv_out" then { channels := 1, height := 7, width := 7 }
      else { channels := 2, height := 5, width := 5 } }

/-- A world always handing out `engNamed`. -/
def worldNamed : EngineWorld :=
  { create := fun _ _ => some engNamed, netInitOk := fun _ => true }

/-- A frame reporting the native size 1920 x 1080. -/
def fGood : CameraFrame := { src_width := 1920, src_height := 1080, getImageOk := true }

/-- A frame reporting 1280 x 720. -/
def fBad : CameraFrame := { src_width := 1280, src_height := 720, getImageOk := true }

/-- Fallback blob for extracting a `Detect` result. -/
def blob0 : Blob := { channels := 0, height := 0, width := 0 }

/-- The detector state after a successful `Init` with `pMain` and the
1920 x 1080 camera. -/
def st960 : DetectorState :=
  (Init freshDetector (okWorld 240 960) (some pMain) (some cam1080)).1.toOption.getD freshDetector

/-- The detector state after a successful `Init` with `pMain` and no
camera model (default native size path). -/
def stNone : DetectorState :=
  (Init freshDetector (okWorld 240 960) (some pMain) none).1.toOption.getD freshDetector

/-- First `Init` result for the re-init experiment. -/
def stA : DetectorState := st960

/-- Second `Init` on top of `stA`, identical configuration. -/
def stB : DetectorState :=
  (Init stA (okWorld 240 960) (some pMain) (some cam1080)).1.toOption.getD freshDetector

/-- The detector state after a successful `Init` with `pTwoOut` and the
name-distinguishing engine world. -/
def stTwo : DetectorState :=
  (Init freshDetector worldNamed (some pTwoOut) (some cam1080)).1.toOption.getD freshDetector

/-- The detector state after a successful `Init` with `pTrunc33` (crop
width 101, scale 0.33). -/
def st33 : DetectorState :=
  (Init freshDetector (okWorld 33 33) (some pTrunc33) (some cam1080)).1.toOption.getD freshDetector

/-! ## Helper lemmas -/

theorem Init_some (st : DetectorState) (w : EngineWorld) (p : DenselineParam)
    (c : CameraModel) :
    Init st w (some p) (some c) = initCore st w p c.height c.width := rfl

theorem Init_none (st : DetectorState) (w : EngineWorld) (p : DenselineParam) :
    Init st w (some p) none =
      ((initCore st w p 1080 1920).1,
       Event.log Severity.error nullptrMsg :: (initCore st w p 1080 1920).2) := rfl

/-- Inversion of the success path of `initCore`: a successful pass returns
exactly `readyState`, and every guard held. -/
theorem initCore_ok {st : DetectorState} {w : EngineWorld} {p : DenselineParam}
    {ih iw : Int} {st' : DetectorState}
    (h : (initCore st w p ih iw).1 = Except.ok st') :
    st' = readyState st p ih iw ∧ 0 < iw ∧ 0 < ih ∧
      p.model_param.crop_height ≤ ih ∧ p.model_param.crop_width ≤ iw ∧
      0 < mulTrunc p.model_param.crop_width p.model_param.resize_scale ∧
      0 < mulTrunc p.model_param.crop_height p.model_param.resize_scale := by
  simp only [initCore] at h
  split at h
  case isFalse => simp at h
  case isTrue hiw =>
    split at h
    case isFalse => simp at h
    case isTrue hih =>
      split at h
      case isFalse => simp at h
      case isTrue hch =>
        split at h
        case isFalse => simp at h
        case isTrue hcw =>
          split at h
          case isFalse => simp at h
          case isTrue hcreate =>
            split at h
            case isFalse => simp at h
            case isTrue hrw =>
              split at h
              case isFalse => simp at h
              case isTrue hrh =>
                split at h
                case isFalse => simp at h
                case isTrue hnet =>
                  simp only [Except.ok.injEq] at h
                  subst h
                  exact ⟨rfl, hiw, hih, hch, hcw, hrw, hrh⟩

/-- Inversion of the success path of `Detect`: a published blob is always
the engine's blob for the first configured output name. -/
theorem Detect_ok {st : DetectorState} {eng : Engine} {f : CameraFrame} {b : Blob}
    (h : (Detect st eng (some f)).1 = Except.ok b) :
    b = eng.blobs (st.net_outputs.headD noBlobName) := by
  simp only [Detect] at h
  split at h
  case isFalse => simp at h
  case isTrue h1 =>
    split at h
    case isFalse => simp at h
    case isTrue h2 =>
      split at h
      case isFalse => simp at h
      case isTrue h3 =>
        split at h
        case isFalse => simp at h
        case isTrue h4 =>
          split at h
          case isFalse => simp at h
          case isTrue h5 =>
            simp only [Except.ok.injEq] at h
            exact h.symm

/-- Forward run of `Detect` when every check passes. -/
theorem Detect_run (st : DetectorState) (eng : Engine) (f : CameraFrame)
    (h1 : st.input_width = f.src_width) (h2 : st.input_height = f.src_height)
    (h3 : f.getImageOk = true)
    (h4 : (eng.blobs (st.net_inputs.headD noBlobName)).height = st.resize_height)
    (h5 : (eng.blobs (st.net_inputs.headD noBlobName)).width = st.resize_width) :
    Detect st eng (some f) =
      (Except.ok (eng.blobs (st.net_outputs.headD noBlobName)),
       [Event.getImage, Event.resizeGPU st.crop_width,
        Event.deviceSync, Event.infer]) := by
  simp only [Detect]
  rw [if_pos h1, if_pos h2, if_pos h3, if_pos h4, if_pos h5]

/-- `Detect` on a frame reporting a native size other than the recorded
one fails with the size-mismatch check, before any collaborator call. -/
theorem Detect_mismatch (st : DetectorState) (eng : Engine) (f : CameraFrame)
    (h : f.src_width ≠ st.input_width ∨ f.src_height ≠ st.input_height) :
    Detect st eng (some f) = (Except.error DetectErr.frameSizeMismatch, []) := by
  simp only [Detect]
  by_cases hw : st.input_width = f.src_width
  · rcases h with h | h
    · exact absurd hw.symm h
    · rw [if_pos hw, if_neg (fun hc => h hc.symm)]
  · rw [if_neg hw]

/-- `Detect` when the live input blob's height or width disagrees with the
resize dimensions recorded at `Init`: the shape-drift check fires and
neither the resize kernel nor inference runs. -/
theorem Detect_driftRun (st : DetectorState) (eng : Engine) (f : CameraFrame)
    (h1 : st.input_width = f.src_width) (h2 : st.input_height = f.src_height)
    (h3 : f.getImageOk = true)
    (h : (eng.blobs (st.net_inputs.headD noBlobName)).height ≠ st.resize_height ∨
      (eng.blobs (st.net_inputs.headD noBlobName)).width ≠ st.resize_width) :
    Detect st eng (some f) = (Except.error DetectErr.shapeDrift, [Event.getImage]) := by
  simp only [Detect]
  rw [if_pos h1, if_pos h2, if_pos h3]
  by_cases hh : (eng.blobs (st.net_inputs.headD noBlobName)).height = st.resize_height
  · rcases h with h | h
    · exact absurd hh h
    · rw [if_pos hh, if_neg h]
  · rw [if_neg hh]

/-- Full characterization of a successful `initCore` run: result state and
event trace. -/
theorem initCore_ok_pair {st : DetectorState} {w : EngineWorld} {p : DenselineParam}
    {ih iw : Int} {st' : DetectorState}
    (h : (initCore st w p ih iw).1 = Except.ok st') :
    initCore st w p ih iw =
      (Except.ok (readyState st p ih iw),
       [Event.createEngine (readyState st p ih iw).net_outputs (readyState st p ih iw).net_inputs,
        Event.netInit [1, 3, (readyState st p ih iw).resize_height,
          (readyState st p ih iw).resize_width]]) := by
  simp only [initCore] at h ⊢
  by_cases hiw : 0 < iw
  case neg => rw [if_neg hiw] at h; simp at h
  case pos =>
  rw [if_pos hiw] at h ⊢
  by_cases hih : 0 < ih
  case neg => rw [if_neg hih] at h; simp at h
  case pos =>
  rw [if_pos hih] at h ⊢
  by_cases hch : p.model_param.crop_height ≤ ih
  case neg => rw [if_neg hch] at h; simp at h
  case pos =>
  rw [if_pos hch] at h ⊢
  by_cases hcw : p.model_param.crop_width ≤ iw
  case neg => rw [if_neg hcw] at h; simp at h
  case pos =>
  rw [if_pos hcw] at h ⊢
  by_cases hc : (w.create
      (st.net_outputs ++ p.net_param.out_blob :: p.net_param.internal_blob_int8)
      (st.net_inputs ++ [p.net_param.in_blob])).isSome = true
  case neg => rw [if_neg hc] at h; simp at h
  case pos =>
  rw [if_pos hc] at h ⊢
  by_cases hrw : 0 < mulTrunc p.model_param.crop_width p.model_param.resize_scale
  case neg => rw [if_neg hrw] at h; simp at h
  case pos =>
  rw [if_pos hrw] at h ⊢
  by_cases hrh : 0 < mulTrunc p.model_param.crop_height p.model_param.resize_scale
  case neg => rw [if_neg hrh] at h; simp at h
  case pos =>
  rw [if_pos hrh] at h ⊢
  by_cases hnet : w.netInitOk [1, 3,
      mulTrunc p.model_param.crop_height p.model_param.resize_scale,
      mulTrunc p.model_param.crop_width p.model_param.resize_scale] = true
  case neg => rw [if_neg hnet] at h; simp at h
  case pos =>
  rw [if_pos hnet]
  rfl

/-! ## Claims -/

/-- C1 (counterexample): the claim says `Init` fails whenever
`offset_x + width > native_width`; but with offset 100 and crop width
1920 on a 1920-wide native frame (100 + 1920 > 1920) `Init` succeeds —
the source checks only `crop_width_ <= input_width_` (lines 73-76) and
never adds the offsets. -/
theorem C1_counterexample :
    pOffset.model_param.input_offset_x + pOffset.model_param.crop_width > cam1080.width ∧
    (Init freshDetector (okWorld 240 960) (some pOffset) (some cam1080)).1.isOk = true :=
  ⟨by decide, by decide⟩

/-- C1 (amended): `Init` validates the crop against the native frame
without counting the offsets: it fails (returning a crop-bound error,
never reaching a ready state) whenever `crop_height > native_height` or
`crop_width > native_width`. -/
theorem C1_crop_check (st : DetectorState) (w : EngineWorld) (p : DenselineParam)
    (c : CameraModel) (hW : 0 < c.width) (hH : 0 < c.height)
    (hexc : c.height < p.model_param.crop_height ∨ c.width < p.model_param.crop_width) :
    (Init st w (some p) (some c)).1 = Except.error InitErr.cropHeightExceeds ∨
    (Init st w (some p) (some c)).1 = Except.error InitErr.cropWidthExceeds := by
  rw [Init_some]
  by_cases hch : p.model_param.crop_height ≤ c.height
  · have hcw : ¬ p.model_param.crop_width ≤ c.width := by omega
    right
    simp only [initCore]
    rw [if_pos hW, if_pos hH, if_pos hch, if_neg hcw]
  · left
    simp only [initCore]
    rw [if_pos hW, if_pos hH, if_neg hch]

/-- C1 witness: crop height 2000 on a 1080-high native frame is rejected. -/
theorem C1_crop_check_witness :
    (Init freshDetector (okWorld 240 960) (some pBig) (some cam1080)).1 =
        Except.error InitErr.cropHeightExceeds ∨
    (Init freshDetector (okWorld 240 960) (some pBig) (some cam1080)).1 =
        Except.error InitErr.cropWidthExceeds :=
  C1_crop_check freshDetector (okWorld 240 960) pBig cam1080 (by decide) (by decide)
    (by decide)

/-- C2 (counterexample): the claim says a configuration with
`crop_width x scale = 101 x 0.33 = 33.33` (not a whole number) must make
`Init` fail with a non-integral-resize error; but `Init` succeeds and
stores the truncated value 33 (source lines 125-128 truncate
`crop_width_ * image_scale_` to `int` and only check positivity). -/
theorem C2_counterexample :
    (Init freshDetector (okWorld 33 33) (some pTrunc33) (some cam1080)).1.isOk = true ∧
    st33.resize_width = 33 ∧
    (33 : ℚ) < (pTrunc33.model_param.crop_width : ℚ) *
      pTrunc33.model_param.resize_scale.toRat ∧
    (pTrunc33.model_param.crop_width : ℚ) *
      pTrunc33.model_param.resize_scale.toRat < (34 : ℚ) :=
  ⟨by decide, by decide,
   by norm_num [pTrunc33, FloatQ.toRat],
   by norm_num [pTrunc33, FloatQ.toRat]⟩

/-- C2 (amended): `Init` never rejects a non-integral product: the resize
dimensions are `crop x scale` truncated toward zero (`mulTrunc`), and the
only check on them is positivity of the truncated values.  (When the
product is exactly a positive integer the truncation is lossless,
`mulTrunc_exact`.) -/
theorem C2_resize_trunc (st : DetectorState) (w : EngineWorld) (p : DenselineParam)
    (c : CameraModel) (st' : DetectorState)
    (h : (Init st w (some p) (some c)).1 = Except.ok st') :
    st'.resize_width = mulTrunc p.model_param.crop_width p.model_param.resize_scale ∧
    st'.resize_height = mulTrunc p.model_param.crop_height p.model_param.resize_scale ∧
    0 < st'.resize_width ∧ 0 < st'.resize_height := by
  rw [Init_some] at h
  obtain ⟨hst, -, -, -, -, hrw, hrh⟩ := initCore_ok h
  subst hst
  exact ⟨rfl, rfl, hrw, hrh⟩

/-- C2 witness: the end-to-end configuration (crop 1920 x 480, scale 1/2)
resolves to the truncated products 960 x 240. -/
theorem C2_resize_trunc_witness :
    st960.resize_width = mulTrunc pMain.model_param.crop_width pMain.model_param.resize_scale ∧
    st960.resize_height = mulTrunc pMain.model_param.crop_height pMain.model_param.resize_scale ∧
    0 < st960.resize_width ∧ 0 < st960.resize_height :=
  C2_resize_trunc freshDetector (okWorld 240 960) pMain cam1080 st960 (by decide)

/-- C3 (counterexample): the claim says every accepted configuration
passes the engine an input shape `(1, 3, crop_height x scale,
crop_width x scale)`; but with crop width 103 and scale 1/3 `Init` is
accepted and passes width 34, while `103 x (1/3) = 34.33...` — the shape
holds the truncated product, not the product. -/
theorem C3_counterexample :
    (Init freshDetector (okWorld 30 34) (some pTrunc3) (some cam1080)).1.isOk = true ∧
    Event.netInit [1, 3, 30, 34] ∈
      (Init freshDetector (okWorld 30 34) (some pTrunc3) (some cam1080)).2 ∧
    (34 : ℚ) < (pTrunc3.model_param.crop_width : ℚ) *
      pTrunc3.model_param.resize_scale.toRat ∧
    (pTrunc3.model_param.crop_width : ℚ) *
      pTrunc3.model_param.resize_scale.toRat < (35 : ℚ) :=
  ⟨by decide, by decide,
   by norm_num [pTrunc3, pTrunc33, FloatQ.toRat],
   by norm_num [pTrunc3, pTrunc33, FloatQ.toRat]⟩

/-- C3 (amended): for every configuration accepted by `Init`, the network
input shape passed to the engine is
`(1, 3, trunc(crop_height x scale), trunc(crop_width x scale))`; with the
end-to-end configuration (native 1920 x 1080, crop 1920 x 480 at (0,300),
scale 1/2) this is `(1, 3, 240, 960)` — see the witness. -/
theorem C3_input_shape (st : DetectorState) (w : EngineWorld) (p : DenselineParam)
    (c : CameraModel) (st' : DetectorState)
    (h : (Init st w (some p) (some c)).1 = Except.ok st') :
    Event.netInit [1, 3,
      mulTrunc p.model_param.crop_height p.model_param.resize_scale,
      mulTrunc p.model_param.crop_width p.model_param.resize_scale] ∈
      (Init st w (some p) (some c)).2 := by
  rw [Init_some] at h ⊢
  rw [initCore_ok_pair h]
  simp [readyState]

/-- C3 witness: the end-to-end configuration passes the engine the input
shape `(1, 3, 240, 960)`. -/
theorem C3_input_shape_witness :
    Event.netInit [1, 3, 240, 960] ∈
      (Init freshDetector (okWorld 240 960) (some pMain) (some cam1080)).2 := by
  have h := C3_input_shape freshDetector (okWorld 240 960) pMain cam1080 st960 (by decide)
  exact h

/-- C4 (confirmed): a frame reporting a native size other than the one
recorded at `Init` makes `Detect` fail with the frame-size-mismatch
check before any collaborator call (empty trace), and since `Detect`
mutates no detector member, the same detector state then accepts a frame
reporting exactly the recorded size, proceeding all the way to
inference. -/
theorem C4_frame_binding (st : DetectorState) (eng : Engine) (f g : CameraFrame)
    (hf : f.src_width ≠ st.input_width ∨ f.src_height ≠ st.input_height)
    (hgw : g.src_width = st.input_width) (hgh : g.src_height = st.input_height)
    (hgi : g.getImageOk = true)
    (hbh : (eng.blobs (st.net_inputs.headD noBlobName)).height = st.resize_height)
    (hbw : (eng.blobs (st.net_inputs.headD noBlobName)).width = st.resize_width) :
    Detect st eng (some f) = (Except.error DetectErr.frameSizeMismatch, []) ∧
    (Detect st eng (some g)).1 =
      Except.ok (eng.blobs (st.net_outputs.headD noBlobName)) ∧
    Event.infer ∈ (Detect st eng (some g)).2 := by
  refine ⟨Detect_mismatch st eng f hf, ?_, ?_⟩
  · rw [Detect_run st eng g hgw.symm hgh.symm hgi hbh hbw]
  · rw [Detect_run st eng g hgw.symm hgh.symm hgi hbh hbw]
    simp

/-- C4 witness: the detector initialized for 1920 x 1080 rejects a
1280 x 720 frame and then accepts a 1920 x 1080 frame, reaching
inference. -/
theorem C4_frame_binding_witness :
    Detect st960 eng960 (some fBad) = (Except.error DetectErr.frameSizeMismatch, []) ∧
    (Detect st960 eng960 (some fGood)).1 =
      Except.ok (eng960.blobs (st960.net_outputs.headD noBlobName)) ∧
    Event.infer ∈ (Detect st960 eng960 (some fGood)).2 :=
  C4_frame_binding st960 eng960 fBad fGood (by decide) (by decide) (by decide)
    (by decide) (by decide) (by decide)

/-- C5 (counterexample): the claim says a shape-drift failure transitions
the detector to a `Failed` state making subsequent `Detect` calls
invalid; but the source keeps no such state and mutates no member on the
failing path, so after a drift failure the same detector state completes
a successful `Detect` as soon as the engine again reports the validated
shape. -/
theorem C5_counterexample :
    (Detect st960 engDrift (some fGood)).1 = Except.error DetectErr.shapeDrift ∧
    (Detect st960 eng960 (some fGood)).1.isOk = true :=
  ⟨by decide, by decide⟩

/-- C5 (amended): every `Detect` call re-validates the live input blob's
height and width against the resize dimensions recorded at `Init` and
fails with the shape-drift check on any mismatch, without reaching the
resize kernel or inference; the detector records no `Failed` state — its
member state is untouched, and a subsequent call succeeds or fails
purely on its own inputs. -/
theorem C5_shape_drift (st : DetectorState) (eng : Engine) (f : CameraFrame)
    (h1 : st.input_width = f.src_width) (h2 : st.input_height = f.src_height)
    (h3 : f.getImageOk = true)
    (h : (eng.blobs (st.net_inputs.headD noBlobName)).height ≠ st.resize_height ∨
      (eng.blobs (st.net_inputs.headD noBlobName)).width ≠ st.resize_width) :
    (Detect st eng (some f)).1 = Except.error DetectErr.shapeDrift ∧
    Event.infer ∉ (Detect st eng (some f)).2 ∧
    Event.resizeGPU st.crop_width ∉ (Detect st eng (some f)).2 := by
  rw [Detect_driftRun st eng f h1 h2 h3 h]
  refine ⟨rfl, by simp, by simp⟩

/-- C5 witness: a drifted engine (blob height 111 instead of 240) makes
`Detect` fail with shape drift, never reaching resize or inference. -/
theorem C5_shape_drift_witness :
    (Detect st960 engDrift (some fGood)).1 = Except.error DetectErr.shapeDrift ∧
    Event.infer ∉ (Detect st960 engDrift (some fGood)).2 ∧
    Event.resizeGPU st960.crop_width ∉ (Detect st960 engDrift (some fGood)).2 :=
  C5_shape_drift st960 engDrift fGood (by decide) (by decide) (by decide) (by decide)

/-- C6 (confirmed): for a detector initialized from a fresh state, the
blob a successful `Detect` publishes to the frame's result slot is the
engine's blob for the configured `out_blob` — index 0 of the output-name
vector — regardless of any additional configured output names. -/
theorem C6_output_first (st : DetectorState) (w : EngineWorld) (p : DenselineParam)
    (c : CameraModel) (st' : DetectorState) (eng : Engine) (f : CameraFrame) (b : Blob)
    (hpre : st.net_outputs = [])
    (hinit : (Init st w (some p) (some c)).1 = Except.ok st')
    (hdet : (Detect st' eng (some f)).1 = Except.ok b) :
    b = eng.blobs p.net_param.out_blob := by
  rw [Init_some] at hinit
  obtain ⟨hst, -, -, -, -, -, -⟩ := initCore_ok hinit
  subst hst
  rw [Detect_ok hdet]
  simp [readyState, hpre]

/-- C6 witness: with output names `[conv_out, blob_b]` and an engine
distinguishing the two, the published blob is the one bound to
`conv_out`. -/
theorem C6_output_first_witness :
    (Detect stTwo engNamed (some fGood)).1.toOption.getD blob0 =
      engNamed.blobs pTwoOut.net_param.out_blob :=
  C6_output_first freshDetector worldNamed pTwoOut cam1080 stTwo engNamed fGood
    ((Detect stTwo engNamed (some fGood)).1.toOption.getD blob0)
    (by decide) (by decide) (by decide)

/-- C7 (confirmed): `Detect` on an absent (null) frame fails with the
null-frame check and an empty event trace: no output is published and
neither the image provider, the resize kernel, nor inference is
invoked. -/
theorem C7_null_frame (st : DetectorState) (eng : Engine) :
    Detect st eng none = (Except.error DetectErr.nullFrame, []) := rfl

/-- C8 (confirmed): when no camera model is supplied, `Init` does not fail
on that account: it emits an error-level (hence at-least-warning-level)
log line, records the default native resolution, and otherwise behaves
exactly as if a camera model with the default resolution had been
supplied. -/
theorem C8_default_camera (st : DetectorState) (w : EngineWorld) (p : DenselineParam)
    (st' : DetectorState) :
    ((Init st w (some p) none).1 = Except.ok st' →
      st'.input_width = 1920 ∧ st'.input_height = 1080) ∧
    Event.log Severity.error nullptrMsg ∈ (Init st w (some p) none).2 ∧
    Severity.error.atLeastWarn = true ∧
    (Init st w (some p) none).1 =
      (Init st w (some p) (some { height := 1080, width := 1920 })).1 := by
  refine ⟨?_, ?_, rfl, rfl⟩
  · intro h
    have hcore : (initCore st w p 1080 1920).1 = Except.ok st' := h
    obtain ⟨hst, -, -, -, -, -, -⟩ := initCore_ok hcore
    subst hst
    exact ⟨rfl, rfl⟩
  · rw [Init_none]
    exact List.mem_cons_self _ _

/-- C8 witness: the end-to-end configuration with no camera model records
1920 x 1080 and logs the fallback. -/
theorem C8_default_camera_witness :
    stNone.input_width = 1920 ∧ stNone.input_height = 1080 ∧
    Event.log Severity.error nullptrMsg ∈
      (Init freshDetector (okWorld 240 960) (some pMain) none).2 :=
  ⟨((C8_default_camera freshDetector (okWorld 240 960) pMain stNone).1 (by decide)).1,
   ((C8_default_camera freshDetector (okWorld 240 960) pMain stNone).1 (by decide)).2,
   (C8_default_camera freshDetector (okWorld 240 960) pMain stNone).2.1⟩

/-- C9 (counterexample): the claim says a second `Init` with identical
configuration leaves the same observable binding behaviour as a single
`Init`; but the blob-name vectors are appended, not reset (source lines
100-104 `push_back`), so the second `Init` creates the engine with
duplicated output/input name lists and leaves different member
vectors. -/
theorem C9_counterexample :
    (Init freshDetector (okWorld 240 960) (some pMain) (some cam1080)).1.isOk = true ∧
    (Init stA (okWorld 240 960) (some pMain) (some cam1080)).1.isOk = true ∧
    stA.net_outputs = ["conv_out"] ∧
    stB.net_outputs = ["conv_out", "conv_out"] ∧
    stB.net_inputs = ["data", "data"] ∧
    Event.createEngine ["conv_out", "conv_out"] ["data", "data"] ∈
      (Init stA (okWorld 240 960) (some pMain) (some cam1080)).2 :=
  ⟨by decide, by decide, by decide, by decide, by decide, by decide⟩

/-- C9 (amended): a second `Init` with identical valid configuration
succeeds and recomputes identical resolved geometry (native size, crop,
offsets, scale, resize dimensions), and index 0 of each name vector —
what `Detect` consults — is unchanged; but the name vectors themselves
are appended to, not reset. -/
theorem C9_reinit (w : EngineWorld) (p : DenselineParam) (c : CameraModel)
    (st1 st2 : DetectorState)
    (h1 : (Init freshDetector w (some p) (some c)).1 = Except.ok st1)
    (h2 : (Init st1 w (some p) (some c)).1 = Except.ok st2) :
    st2.input_width = st1.input_width ∧ st2.input_height = st1.input_height ∧
    st2.image_scale = st1.image_scale ∧
    st2.input_offset_x = st1.input_offset_x ∧ st2.input_offset_y = st1.input_offset_y ∧
    st2.crop_height = st1.crop_height ∧ st2.crop_width = st1.crop_width ∧
    st2.resize_height = st1.resize_height ∧ st2.resize_width = st1.resize_width ∧
    st2.net_inputs.headD noBlobName = st1.net_inputs.headD noBlobName ∧
    st2.net_outputs.headD noBlobName = st1.net_outputs.headD noBlobName ∧
    st2.net_inputs = st1.net_inputs ++ [p.net_param.in_blob] ∧
    st2.net_outputs = st1.net_outputs ++ p.net_param.out_blob ::
      p.net_param.internal_blob_int8 := by
  rw [Init_some] at h1 h2
  obtain ⟨hst1, -, -, -, -, -, -⟩ := initCore_ok h1
  obtain ⟨hst2, -, -, -, -, -, -⟩ := initCore_ok h2
  subst hst1
  subst hst2
  refine ⟨rfl, rfl, rfl, rfl, rfl, rfl, rfl, rfl, rfl, ?_, ?_, rfl, rfl⟩
  · simp [readyState, freshDetector]
  · simp [readyState, freshDetector]

/-- C9 witness: re-initializing with the end-to-end configuration keeps
the geometry and the index-0 names, appending duplicates to the
vectors. -/
theorem C9_reinit_witness :
    stB.resize_width = stA.resize_width ∧
    stB.net_outputs.headD noBlobName = stA.net_outputs.headD noBlobName ∧
    stB.net_outputs = stA.net_outputs ++ pMain.net_param.out_blob ::
      pMain.net_param.internal_blob_int8 := by
  obtain ⟨-, -, -, -, -, -, -, -, hrw, -, hdo, -, hno⟩ :=
    C9_reinit (okWorld 240 960) pMain cam1080 stA stB (by decide) (by decide)
  exact ⟨hrw, hdo, hno⟩

/-- C10 (confirmed): with no camera model supplied, the recorded default
native resolution is exactly 1920 x 1080, and `Detect` on the resulting
state rejects (with the frame-size-mismatch check) every frame not
reporting exactly 1920 x 1080. -/
theorem C10_default_dims (st : DetectorState) (w : EngineWorld) (p : DenselineParam)
    (st' : DetectorState) (eng : Engine) (f : CameraFrame)
    (h : (Init st w (some p) none).1 = Except.ok st')
    (hf : f.src_width ≠ 1920 ∨ f.src_height ≠ 1080) :
    st'.input_width = 1920 ∧ st'.input_height = 1080 ∧
    (Detect st' eng (some f)).1 = Except.error DetectErr.frameSizeMismatch := by
  have hcore : (initCore st w p 1080 1920).1 = Except.ok st' := h
  obtain ⟨hst, -, -, -, -, -, -⟩ := initCore_ok hcore
  subst hst
  refine ⟨rfl, rfl, ?_⟩
  rw [Detect_mismatch (readyState st p 1080 1920) eng f (by simpa [readyState] using hf)]

/-- C10 witness: the no-camera detector records 1920 x 1080 and rejects a
1280 x 720 frame. -/
theorem C10_default_dims_witness :
    stNone.input_width = 1920 ∧ stNone.input_height = 1080 ∧
    (Detect stNone eng960 (some fBad)).1 = Except.error DetectErr.frameSizeMismatch :=
  C10_default_dims freshDetector (okWorld 240 960) pMain stNone eng960 fBad
    (by decide) (by decide)
